import Mathlib

/-!
Verification of the NATS storage engine core (src/Storages/NATS/StorageNATS.cpp)
against its natural-language specification.  The C++ functions are shallowly
embedded as Lean functions: machine state that a function reads becomes an
explicit argument, side effects become explicit event lists, and exceptions
become Except values.
-/

/-- Compile-time constant QUEUE_SIZE from StorageNATS.cpp line 31. -/
def QUEUE_SIZE : Nat := 100000

/-- Compile-time constant RESCHEDULE_MS from StorageNATS.cpp line 32. -/
def RESCHEDULE_MS : Nat := 500

/-- Compile-time constant BACKOFF_TRESHOLD from StorageNATS.cpp line 33. -/
def BACKOFF_TRESHOLD : Nat := 8000

/-- Compile-time constant MAX_THREAD_WORK_DURATION_MS from StorageNATS.cpp line 34. -/
def MAX_THREAD_WORK_DURATION_MS : Nat := 60000

/-- The error codes used by StorageNATS.cpp (namespace ErrorCodes). -/
inductive NATSError where
  | LOGICAL_ERROR
  | BAD_ARGUMENTS
  | NUMBER_OF_ARGUMENTS_DOESNT_MATCH
  | CANNOT_CONNECT_NATS
  | QUERY_NOT_ALLOWED
deriving DecidableEq, Repr

/-- One update of the field milliseconds_to_wait made by
StorageNATS::streamingToViewsFunc (lines 476-487): when streamToViews
returned true the delay doubles while it is below BACKOFF_TRESHOLD,
otherwise it is reset to RESCHEDULE_MS. -/
def backoffStep (stream_returned_backoff : Bool) (ms : Nat) : Nat :=
  if stream_returned_backoff then
    (if ms < BACKOFF_TRESHOLD then ms * 2 else ms)
  else
    RESCHEDULE_MS

/-- Value of milliseconds_to_wait after n consecutive streaming cycles in
which streamToViews reported back off, starting from the constructor
initialisation milliseconds_to_wait = RESCHEDULE_MS (line 63). -/
def backoffAfter : Nat → Nat
  | 0 => RESCHEDULE_MS
  | n + 1 => backoffStep true (backoffAfter n)

/-- The two settings checks performed by registerStorageNATS
(StorageNATS.cpp lines 631-637): an exception when neither nats_url nor
nats_server_list is set, and an exception when nats_format is not set. -/
def validateNATSSettings (url_changed server_list_changed format_changed : Bool) :
    Except NATSError Unit :=
  if !url_changed && !server_list_changed then
    .error .NUMBER_OF_ARGUMENTS_DOESNT_MATCH
  else if !format_changed then
    .error .NUMBER_OF_ARGUMENTS_DOESNT_MATCH
  else
    .ok ()

/-- Outcome of a call to StorageNATS::popReadBuffer for a caller observing a
pool with a given number of free buffers and no concurrent pushes. -/
inductive PopOutcome where
  | acquired
  | blocked
  | empty
deriving DecidableEq, Repr

/-- StorageNATS::popReadBuffer(timeout) (lines 387-404): a zero timeout is
the sentinel meaning wait on the semaphore with no timeout (blocking until a
buffer is free); a nonzero timeout uses tryWait and returns nullptr
(modelled as PopOutcome.empty) on expiry. -/
def popReadBuffer (timeout_ms : Nat) (free : Nat) : PopOutcome :=
  if timeout_ms = 0 then
    (if 0 < free then .acquired else .blocked)
  else
    (if 0 < free then .acquired else .empty)

/-- StorageNATS::popReadBuffer() with no argument (lines 381-384) forwards a
zero timeout. -/
def popReadBufferDefault (free : Nat) : PopOutcome :=
  popReadBuffer 0 free

theorem backoffAfter_add_four (k : Nat) : backoffAfter (k + 4) = 8000 := by
  induction k with
  | zero => decide
  | succ k ih =>
      show backoffStep true (backoffAfter (k + 4)) = 8000
      rw [ih]
      decide

/-- C2: after N consecutive streaming cycles reporting back off, the delay
stored in milliseconds_to_wait equals min (500 * 2 ^ N) 8000, and a single
cycle in which streamToViews returns false resets the delay to 500 ms. -/
theorem backoff_law :
    (∀ n, backoffAfter n = min (RESCHEDULE_MS * 2 ^ n) BACKOFF_TRESHOLD)
    ∧ (∀ ms, backoffStep false ms = RESCHEDULE_MS) := by
  constructor
  · intro n
    rcases Nat.lt_or_ge n 4 with h | h
    · interval_cases n <;> decide
    · obtain ⟨k, rfl⟩ := Nat.exists_eq_add_of_le h
      rw [Nat.add_comm 4 k, backoffAfter_add_four]
      have h16 : (16 : Nat) ≤ 2 ^ (4 + k) := by
        calc (16 : Nat) = 2 ^ 4 := by decide
        _ ≤ 2 ^ (4 + k) := Nat.pow_le_pow_right (by decide) (Nat.le_add_right 4 k)
      have : (8000 : Nat) ≤ 500 * 2 ^ (4 + k) := by
        calc (8000 : Nat) = 500 * 16 := by decide
        _ ≤ 500 * 2 ^ (4 + k) := Nat.mul_le_mul_left 500 h16
      rw [Nat.add_comm 4 k] at this
      simp [RESCHEDULE_MS, BACKOFF_TRESHOLD, Nat.min_eq_right this]
  · intro ms
    rfl

/-- C8: table creation throws when neither a broker url nor a server list is
given and when no format is given; with a broker address and a format
present these two checks succeed. -/
theorem validateNATSSettings_ok_iff :
    (∀ u s f, validateNATSSettings u s f = .ok () ↔ ((u || s) && f) = true)
    ∧ (∀ u s f, (u || s) = false →
        validateNATSSettings u s f = .error .NUMBER_OF_ARGUMENTS_DOESNT_MATCH)
    ∧ (∀ u s f, f = false → ∃ e, validateNATSSettings u s f = .error e) := by
  refine ⟨?_, ?_, ?_⟩
  · intro u s f
    cases u <;> cases s <;> cases f <;> simp [validateNATSSettings]
  · intro u s f h
    cases u <;> cases s <;> simp_all [validateNATSSettings]
  · intro u s f h
    cases u <;> cases s <;> cases f <;> simp_all [validateNATSSettings]

/-- Witness for validateNATSSettings_ok_iff at concrete inputs. -/
theorem validateNATSSettings_ok_iff_witness :
    validateNATSSettings false false true = .error .NUMBER_OF_ARGUMENTS_DOESNT_MATCH
    ∧ ∃ e, validateNATSSettings true true false = .error e :=
  ⟨validateNATSSettings_ok_iff.2.1 false false true rfl,
   validateNATSSettings_ok_iff.2.2 true true false rfl⟩

/-- C6 counterexample: with a 0 ms timeout on an empty pool, popReadBuffer
blocks on semaphore.wait (line 390-391) instead of returning an empty
result: zero is the sentinel for waiting without a timeout. -/
theorem popReadBuffer_zero_timeout_counterexample :
    popReadBuffer 0 0 = PopOutcome.blocked
    ∧ popReadBuffer 0 0 ≠ PopOutcome.empty := by
  decide

/-- C6 amended: a 0 ms timeout is treated as no timeout and blocks
indefinitely on an empty pool (the no-argument overload forwards 0 and thus
also blocks); a positive timeout returns an empty result on expiry; when a
buffer is free the call returns it. -/
theorem popReadBuffer_timeout_semantics :
    (∀ free, popReadBufferDefault free = popReadBuffer 0 free)
    ∧ popReadBuffer 0 0 = PopOutcome.blocked
    ∧ (∀ t, 0 < t → popReadBuffer t 0 = PopOutcome.empty)
    ∧ (∀ t free, 0 < free → popReadBuffer t free = PopOutcome.acquired) := by
  refine ⟨fun _ => rfl, rfl, ?_, ?_⟩
  · intro t ht
    simp [popReadBuffer, Nat.pos_iff_ne_zero.mp ht]
  · intro t free hf
    rcases Nat.eq_zero_or_pos t with rfl | ht <;> simp [popReadBuffer, hf]

/-- Witness for popReadBuffer_timeout_semantics at concrete inputs. -/
theorem popReadBuffer_timeout_semantics_witness :
    popReadBuffer 5 0 = PopOutcome.empty ∧ popReadBuffer 7 3 = PopOutcome.acquired :=
  ⟨popReadBuffer_timeout_semantics.2.2.1 5 (by decide),
   popReadBuffer_timeout_semantics.2.2.2 7 3 (by decide)⟩

/-- Result of one StorageNATS::streamToViews pass: the returned bool
(back off), whether the event loop was restarted by the final startLoop
(line 612), and how many iterateLoop calls ran in the ack-flushing pass
(line 601). -/
structure StreamResult where
  backoff : Bool
  loop_restarted : Bool
  acks_flushed : Nat
deriving DecidableEq, Repr

/-- StorageNATS::streamToViews, lines 576-617, after the pipeline has
executed and the looping task was deactivated.  Arguments: connected is
connection->isConnected() observed at line 579, shutdown_called the
shutdown flag, reconnect_ok the outcome of connection->reconnect() were it
attempted, and queues_empty the per-source queueEmpty() probes (one entry
per created consumer).  The counter queue_empty is incremented only in the
still-connected branch; after a successful reconnect it stays 0. -/
def streamToViews (connected shutdown_called reconnect_ok : Bool)
    (queues_empty : List Bool) : StreamResult :=
  if connected = false then
    if shutdown_called then ⟨true, false, 0⟩
    else if reconnect_ok then
      (if queues_empty.length = 0 then ⟨true, false, 0⟩ else ⟨false, true, 0⟩)
    else ⟨true, false, 0⟩
  else
    let queue_empty := (queues_empty.filter (fun b => b)).length
    if queue_empty = queues_empty.length then ⟨true, false, queues_empty.length⟩
    else ⟨false, true, queues_empty.length⟩

/-- C1 counterexample: one consumer whose queue is empty, connection found
dropped but successfully restored.  Every source queue is empty, yet
streamToViews returns false (the queue probes are skipped after a
reconnect), while the same queue state with the connection up returns
true — refuting the claimed iff. -/
theorem streamToViews_claim_counterexample :
    (streamToViews false false true [true]).backoff = false
    ∧ (streamToViews true false true [true]).backoff = true := by
  decide

/-- C1 amended: with at least one created consumer, streamToViews returns
true iff either the connection is down and (shutdown was called or
reconnect fails), or the connection stayed up and every source queue probe
was empty; in every other case it restarts the event loop and returns
false; whenever the connection was found down, no ack-flushing loop
iteration runs. -/
theorem streamToViews_backoff_iff (c sc r : Bool) (qs : List Bool) (h : qs ≠ []) :
    ((streamToViews c sc r qs).backoff = true ↔
      ((c = false ∧ (sc = true ∨ r = false)) ∨ (c = true ∧ ∀ q ∈ qs, q = true)))
    ∧ (streamToViews c sc r qs).loop_restarted = !(streamToViews c sc r qs).backoff
    ∧ (c = false → (streamToViews c sc r qs).acks_flushed = 0) := by
  have hlen : qs.length ≠ 0 := by
    cases qs with
    | nil => exact absurd rfl h
    | cons a l => simp
  cases c with
  | false =>
      cases sc with
      | false =>
          cases r with
          | false => simp [streamToViews]
          | true => simp [streamToViews, hlen]
      | true => simp [streamToViews]
  | true =>
      refine ⟨?_, ?_, by simp⟩
      · constructor
        · intro hb
          right
          refine ⟨rfl, ?_⟩
          by_cases hq : (qs.filter (fun b => b)).length = qs.length
          · exact fun q hm => List.filter_length_eq_length.mp hq q hm
          · exfalso
            simp [streamToViews, hq] at hb
        · intro hr
          rcases hr with ⟨hc, _⟩ | ⟨_, hall⟩
          · exact absurd hc (by decide)
          · have hq := List.filter_length_eq_length.mpr hall
            simp [streamToViews, hq]
      · by_cases hq : (qs.filter (fun b => b)).length = qs.length <;>
          simp [streamToViews, hq]

/-- Witness for streamToViews_backoff_iff at a concrete input. -/
theorem streamToViews_backoff_iff_witness :
    ((streamToViews true false true [true, false]).backoff = true ↔
      ((true = false ∧ (false = true ∨ true = false))
        ∨ (true = true ∧ ∀ q ∈ [true, false], q = true)))
    ∧ (streamToViews true false true [true, false]).loop_restarted
        = !(streamToViews true false true [true, false]).backoff
    ∧ (true = false → (streamToViews true false true [true, false]).acks_flushed = 0) :=
  streamToViews_backoff_iff true false true [true, false] (by decide)

/-- Side effects performed by StorageNATS::read before returning. -/
inductive ReadEffect where
  | deactivated_looping
  | started_loop
deriving DecidableEq, Repr

/-- State observed by one call to StorageNATS::read (lines 243-301):
the counter num_created_consumers, the session setting
stream_like_engine_allow_direct_select, the mv_attached flag, whether the
connection is up, whether the event loop is running, and whether a
reconnect attempt would succeed. -/
structure ReadCtx where
  num_created_consumers : Nat
  allow_direct_select : Bool
  mv_attached : Bool
  connected : Bool
  loop_running : Bool
  reconnect_ok : Bool
deriving DecidableEq, Repr

/-- StorageNATS::read: returns the number of pipes produced (one per
created consumer) or the thrown error code, together with the list of side
effects in order.  Line 252 returns an empty pipe before any check when no
consumer was created; lines 255-259 are the two QUERY_NOT_ALLOWED checks;
lines 266-272 handle a dropped connection; line 294 restarts the loop. -/
def StorageNATS.read (c : ReadCtx) : Except NATSError Nat × List ReadEffect :=
  if c.num_created_consumers = 0 then (.ok 0, [])
  else if c.allow_direct_select = false then (.error .QUERY_NOT_ALLOWED, [])
  else if c.mv_attached then (.error .QUERY_NOT_ALLOWED, [])
  else if c.connected = false then
    let effs := if c.loop_running then [ReadEffect.deactivated_looping] else []
    if c.reconnect_ok = false then (.error .CANNOT_CONNECT_NATS, effs)
    else (.ok c.num_created_consumers, effs ++ [ReadEffect.started_loop])
  else if c.loop_running = false then
    (.ok c.num_created_consumers, [ReadEffect.started_loop])
  else
    (.ok c.num_created_consumers, [])

/-- C3 counterexample: with num_created_consumers = 0, direct select
disabled and a materialized view attached, read returns an empty pipe with
no error, refuting that every such call fails with QUERY_NOT_ALLOWED. -/
theorem read_no_consumers_counterexample :
    StorageNATS.read ⟨0, false, true, true, false, false⟩ = (Except.ok 0, []) :=
  rfl

/-- C3 amended: provided at least one consumer was created, read fails
with QUERY_NOT_ALLOWED iff direct select is disabled or a materialized
view is attached (the latter regardless of the setting), and such a
rejected call performs no side effects. -/
theorem read_query_not_allowed_iff (c : ReadCtx) (h : 0 < c.num_created_consumers) :
    ((StorageNATS.read c).1 = Except.error NATSError.QUERY_NOT_ALLOWED ↔
      (c.allow_direct_select = false ∨ c.mv_attached = true))
    ∧ ((c.allow_direct_select = false ∨ c.mv_attached = true) →
        (StorageNATS.read c).2 = []) := by
  have hn : c.num_created_consumers ≠ 0 := Nat.pos_iff_ne_zero.mp h
  rcases c with ⟨n, ads, mv, conn, lr, rok⟩
  simp only at hn
  cases ads <;> cases mv <;> cases conn <;> cases lr <;> cases rok <;>
    simp [StorageNATS.read, hn]

/-- Witness for read_query_not_allowed_iff at a concrete context. -/
theorem read_query_not_allowed_iff_witness :
    (StorageNATS.read ⟨2, false, false, true, false, true⟩).1
        = Except.error NATSError.QUERY_NOT_ALLOWED
    ∧ (StorageNATS.read ⟨2, false, false, true, false, true⟩).2 = [] :=
  ⟨(read_query_not_allowed_iff ⟨2, false, false, true, false, true⟩ (by decide)).1.mpr
      (Or.inl rfl),
   (read_query_not_allowed_iff ⟨2, false, false, true, false, true⟩ (by decide)).2
      (Or.inl rfl)⟩

/-- C10: when num_created_consumers is zero, read returns an empty pipe
with no side effects and raises no error, whatever the setting, the
mv_attached flag and the connection state are. -/
theorem read_empty_when_no_consumers (c : ReadCtx)
    (h : c.num_created_consumers = 0) :
    StorageNATS.read c = (Except.ok 0, []) := by
  simp [StorageNATS.read, h]

/-- Witness for read_empty_when_no_consumers at a concrete context. -/
theorem read_empty_when_no_consumers_witness :
    StorageNATS.read ⟨0, false, true, false, true, false⟩ = (Except.ok 0, []) :=
  read_empty_when_no_consumers ⟨0, false, true, false, true, false⟩ rfl

/-- boost::split of a character sequence on a separator character
(StorageNATS::parseList, line 122): splitting the empty sequence yields one
empty component, and each separator occurrence starts a new component. -/
def splitOnChar (sep : Char) : List Char → List (List Char)
  | [] => [[]]
  | c :: rest =>
      if c = sep then [] :: splitOnChar sep rest
      else
        match splitOnChar sep rest with
        | [] => [[c]]
        | g :: gs => (c :: g) :: gs

/-- boost::trim (StorageNATS::parseList, line 124): remove whitespace from
both ends of a character sequence. -/
def trimChars (l : List Char) : List Char :=
  ((l.dropWhile Char.isWhitespace).reverse.dropWhile Char.isWhitespace).reverse

/-- StorageNATS::parseList (lines 117-127): an empty input yields an empty
list; otherwise the input is split on commas and each component trimmed.
Strings are embedded as character lists. -/
def parseList (list : List Char) : List (List Char) :=
  if list.isEmpty then [] else (splitOnChar ',' list).map trimChars

/-- The settings consulted when a NATS table is created: whether nats_url,
nats_server_list and nats_format were set, and the value of nats_subjects. -/
structure NATSCreateArgs where
  nats_url_changed : Bool
  nats_server_list_changed : Bool
  nats_format_changed : Bool
  nats_subjects : List Char

/-- Table creation: registerStorageNATS runs the settings checks (lines
626-637) and the StorageNATS constructor stores
subjects = parseList(nats_subjects) (line 55).  No check rejects an empty
subject list. -/
def createStorageNATS (a : NATSCreateArgs) : Except NATSError (List (List Char)) :=
  match validateNATSSettings a.nats_url_changed a.nats_server_list_changed
      a.nats_format_changed with
  | .error e => .error e
  | .ok _ => .ok (parseList a.nats_subjects)

/-- C9 counterexample: with a url and a format set but an empty
nats_subjects value, table creation succeeds and the stored subject list is
empty, refuting that the subject list accepted at construction is
non-empty. -/
theorem createStorageNATS_empty_subjects_counterexample :
    createStorageNATS ⟨true, false, true, []⟩ = Except.ok [] :=
  rfl

/-- C9 amended: parseList returns the comma-separated components of the
input with surrounding whitespace trimmed from each component (an empty
input yields the empty list), but construction performs no non-emptiness
check on the subject list: whenever the url/server-list and format checks
pass, creation succeeds with subjects = parseList(nats_subjects), whatever
that value is. -/
theorem parseList_spec :
    parseList [] = []
    ∧ parseList " a , b,c ".toList = ["a".toList, "b".toList, "c".toList]
    ∧ (∀ l : List Char, l ≠ [] → parseList l = (splitOnChar ',' l).map trimChars)
    ∧ (∀ a : NATSCreateArgs, (a.nats_url_changed || a.nats_server_list_changed) = true →
        a.nats_format_changed = true →
        createStorageNATS a = Except.ok (parseList a.nats_subjects)) := by
  refine ⟨rfl, by decide, ?_, ?_⟩
  · intro l hl
    simp [parseList, hl]
  · intro a hu hf
    rcases a with ⟨u, s, f, subj⟩
    simp only at hu hf
    subst hf
    cases u <;> cases s <;> simp_all [createStorageNATS, validateNATSSettings]

/-- Witness for parseList_spec at concrete inputs. -/
theorem parseList_spec_witness :
    parseList "x".toList = (splitOnChar ',' "x".toList).map trimChars
    ∧ createStorageNATS ⟨false, true, true, "x, y".toList⟩
        = Except.ok (parseList "x, y".toList) :=
  ⟨parseList_spec.2.2.1 "x".toList (by decide),
   parseList_spec.2.2.2 ⟨false, true, true, "x, y".toList⟩ rfl rfl⟩

/-- The three background tasks owned by StorageNATS (lines 106-113). -/
inductive NATSTask where
  | connection
  | streaming
  | looping
deriving DecidableEq, Repr

/-- Observable actions performed by StorageNATS::shutdown in program
order. -/
inductive ShutdownEvent where
  | set_shutdown_flag
  | deactivate (t : NATSTask) (wait : Bool)
  | stop_loop
  | unsubscribe
  | disconnect
  | pop_buffer
deriving DecidableEq, Repr

/-- StorageNATS::deactivateTask (lines 216-232): when the stop_loop flag is
set the event loop state is set to STOP first, then the task is deactivated
(waiting on the task mutex when wait is set, as during shutdown). -/
def deactivateTaskEvents (t : NATSTask) (wait stop_the_loop : Bool) :
    List ShutdownEvent :=
  (if stop_the_loop then [ShutdownEvent.stop_loop] else [])
    ++ [ShutdownEvent.deactivate t wait]

/-- StorageNATS::shutdown (lines 337-371): set the shutdown flag, deactivate
the connection, streaming and looping tasks in that order (all with wait,
the looping one also stopping the loop), unsubscribe every buffer only when
the table is being dropped, stop the loop again if still running,
disconnect, and pop num_created_consumers buffers from the pool.
num_buffers is the size of the buffers vector, loop_running the probe at
line 360. -/
def shutdownEvents (drop_table : Bool) (num_buffers num_created : Nat)
    (loop_running : Bool) : List ShutdownEvent :=
  [ShutdownEvent.set_shutdown_flag]
  ++ deactivateTaskEvents .connection true false
  ++ deactivateTaskEvents .streaming true false
  ++ deactivateTaskEvents .looping true true
  ++ (if drop_table then List.replicate num_buffers ShutdownEvent.unsubscribe else [])
  ++ (if loop_running then [ShutdownEvent.stop_loop] else [])
  ++ [ShutdownEvent.disconnect]
  ++ List.replicate num_created ShutdownEvent.pop_buffer

theorem eq_append_cons_split {α : Type} (a : α) (p : List α) :
    ∀ (q l1 l2 : List α), a ∉ p → p ++ q = l1 ++ a :: l2 →
      ∃ q1 q2, q = q1 ++ a :: q2 ∧ l1 = p ++ q1 := by
  induction p with
  | nil =>
      intro q l1 l2 _ h
      exact ⟨l1, l2, by simpa using h, rfl⟩
  | cons x p ih =>
      intro q l1 l2 ha h
      cases l1 with
      | nil =>
          simp only [List.cons_append, List.nil_append] at h
          have hx : x = a := (List.cons_eq_cons.mp h).1
          exact absurd (by rw [hx]; exact List.mem_cons_self a p) ha
      | cons y l1 =>
          simp only [List.cons_append] at h
          obtain ⟨hx, h2⟩ := List.cons_eq_cons.mp h
          have ha2 : a ∉ p := fun hm => ha (List.mem_cons_of_mem x hm)
          obtain ⟨q1, q2, hq, hl⟩ := ih q l1 l2 ha2 h2
          exact ⟨q1, q2, hq, by rw [← hx, hl, List.cons_append]⟩

/-- The five events of shutdown preceding any buffer work. -/
def shutdownPrefix : List ShutdownEvent :=
  [ShutdownEvent.set_shutdown_flag,
   ShutdownEvent.deactivate .connection true,
   ShutdownEvent.deactivate .streaming true,
   ShutdownEvent.stop_loop,
   ShutdownEvent.deactivate .looping true]

theorem shutdownEvents_eq (dt : Bool) (nb nc : Nat) (lr : Bool) :
    shutdownEvents dt nb nc lr = shutdownPrefix
      ++ ((if dt then List.replicate nb ShutdownEvent.unsubscribe else [])
          ++ ((if lr then [ShutdownEvent.stop_loop] else [])
              ++ ([ShutdownEvent.disconnect]
                  ++ List.replicate nc ShutdownEvent.pop_buffer))) := by
  simp [shutdownEvents, deactivateTaskEvents, shutdownPrefix]

/-- C4 counterexample: when drop_table is not set, shutdown of a table with
one created buffer pops it but never unsubscribes it, refuting that every
buffer held by the pool is unsubscribed. -/
theorem shutdown_no_unsubscribe_counterexample :
    ShutdownEvent.unsubscribe ∉ shutdownEvents false 1 1 false
    ∧ (shutdownEvents false 1 1 false).count ShutdownEvent.pop_buffer = 1 := by
  decide

/-- C4 amended: in shutdown the streaming task is deactivated with a
synchronous wait before the looping task, the looping task is deactivated
and the loop stopped before any buffer is unsubscribed or popped, every
buffer is popped from the pool, and the buffers are unsubscribed (all of
them) only when the table is being dropped. -/
theorem shutdown_ordering (dt : Bool) (nb nc : Nat) (lr : Bool) :
    (∃ p m q, shutdownEvents dt nb nc lr
        = p ++ ShutdownEvent.deactivate .streaming true
            :: (m ++ ShutdownEvent.deactivate .looping true :: q))
    ∧ (∀ l1 l2, shutdownEvents dt nb nc lr = l1 ++ ShutdownEvent.unsubscribe :: l2 →
        ShutdownEvent.deactivate .looping true ∈ l1 ∧ ShutdownEvent.stop_loop ∈ l1)
    ∧ (∀ l1 l2, shutdownEvents dt nb nc lr = l1 ++ ShutdownEvent.pop_buffer :: l2 →
        ShutdownEvent.deactivate .looping true ∈ l1 ∧ ShutdownEvent.stop_loop ∈ l1)
    ∧ (shutdownEvents dt nb nc lr).count ShutdownEvent.unsubscribe
        = (if dt then nb else 0)
    ∧ (shutdownEvents dt nb nc lr).count ShutdownEvent.pop_buffer = nc := by
  refine ⟨?_, ?_, ?_, ?_, ?_⟩
  · refine ⟨[ShutdownEvent.set_shutdown_flag, ShutdownEvent.deactivate .connection true],
      [ShutdownEvent.stop_loop], ?_, ?_⟩
    · exact (if dt then List.replicate nb ShutdownEvent.unsubscribe else [])
        ++ ((if lr then [ShutdownEvent.stop_loop] else [])
            ++ ([ShutdownEvent.disconnect]
                ++ List.replicate nc ShutdownEvent.pop_buffer))
    · rw [shutdownEvents_eq]
      rfl
  · intro l1 l2 h
    rw [shutdownEvents_eq] at h
    have hnm : ShutdownEvent.unsubscribe ∉ shutdownPrefix := by decide
    obtain ⟨q1, q2, _, hl⟩ :=
      eq_append_cons_split ShutdownEvent.unsubscribe shutdownPrefix _ l1 l2 hnm h
    constructor
    · rw [hl]
      exact List.mem_append_left q1 (by decide)
    · rw [hl]
      exact List.mem_append_left q1 (by decide)
  · intro l1 l2 h
    rw [shutdownEvents_eq] at h
    have hnm : ShutdownEvent.pop_buffer ∉ shutdownPrefix := by decide
    obtain ⟨q1, q2, _, hl⟩ :=
      eq_append_cons_split ShutdownEvent.pop_buffer shutdownPrefix _ l1 l2 hnm h
    constructor
    · rw [hl]
      exact List.mem_append_left q1 (by decide)
    · rw [hl]
      exact List.mem_append_left q1 (by decide)
  · cases dt <;> cases lr <;>
      simp [shutdownEvents, deactivateTaskEvents, List.count_append,
        List.count_replicate, List.count_cons]
  · cases dt <;> cases lr <;>
      simp [shutdownEvents, deactivateTaskEvents, List.count_append,
        List.count_replicate, List.count_cons]

/-- Witness for shutdown_ordering: the split hypotheses discharged on the
concrete shutdown trace of a dropped table with one buffer. -/
theorem shutdown_ordering_witness :
    ShutdownEvent.deactivate .looping true ∈ shutdownPrefix
    ∧ ShutdownEvent.stop_loop ∈ shutdownPrefix :=
  (shutdown_ordering true 1 1 false).2.1 shutdownPrefix
    ([ShutdownEvent.disconnect] ++ List.replicate 1 ShutdownEvent.pop_buffer)
    (by rw [shutdownEvents_eq]; rfl)

/-- StorageNATS::connectionFunc (lines 206-210): when reconnect fails the
connection task is rescheduled after RESCHEDULE_MS; the result is the
scheduled retry delay, if any. -/
def connectionFunc (reconnect_ok : Bool) : Option Nat :=
  if reconnect_ok then none else some RESCHEDULE_MS

/-- Shutdown flag and activation state of the connection task. -/
structure SysState where
  shutdown_called : Bool
  conn_task_active : Bool
deriving DecidableEq, Repr

/-- Actions in the post-startup lifecycle of the connection task. -/
inductive SysAct where
  | run_connection_task (reconnect_ok : Bool)
  | do_shutdown
deriving DecidableEq, Repr

/-- Observable scheduling events. -/
inductive SysEv where
  | retry_scheduled (ms : Nat)
  | shutdown_signaled
deriving DecidableEq, Repr

/-- Modelled from the spec: the BackgroundSchedulePool running the tasks is
not among the sources under src/; per the spec each task has
activate/deactivate/scheduleAfter semantics and a deactivated task does not
run.  A step either runs the connection task body (connectionFunc, from the
source) when that task is active, or performs the start of
StorageNATS::shutdown (lines 339-342), which sets the shutdown flag and
deactivates the connection task with a synchronous wait before anything
else. -/
def sysStep (s : SysState) : SysAct → SysState × List SysEv
  | .run_connection_task ok =>
      if s.conn_task_active then
        match connectionFunc ok with
        | some d => (s, [SysEv.retry_scheduled d])
        | none => (s, [])
      else (s, [])
  | .do_shutdown => (⟨true, false⟩, [SysEv.shutdown_signaled])

/-- Events emitted by a sequence of lifecycle steps. -/
def sysRun (s : SysState) : List SysAct → List SysEv
  | [] => []
  | a :: rest => (sysStep s a).2 ++ sysRun (sysStep s a).1 rest

/-- State after a sequence of lifecycle steps. -/
def applySys (s : SysState) : List SysAct → SysState
  | [] => s
  | a :: rest => applySys (sysStep s a).1 rest

theorem applySys_append (s : SysState) (l1 l2 : List SysAct) :
    applySys s (l1 ++ l2) = applySys (applySys s l1) l2 := by
  induction l1 generalizing s with
  | nil => rfl
  | cons a l ih => simp [applySys, ih]

theorem no_retry_of_inactive (s : SysState) (h : s.conn_task_active = false)
    (acts : List SysAct) (d : Nat) : SysEv.retry_scheduled d ∉ sysRun s acts := by
  induction acts generalizing s with
  | nil => simp [sysRun]
  | cons a rest ih =>
      intro hd
      cases a with
      | run_connection_task ok =>
          simp only [sysRun, sysStep, h, if_false, Bool.false_eq_true,
            List.nil_append] at hd
          exact ih s h hd
      | do_shutdown =>
          simp only [sysRun, sysStep, List.cons_append, List.nil_append,
            List.mem_cons] at hd
          rcases hd with hd | hd
          · exact SysEv.noConfusion hd
          · exact ih ⟨true, false⟩ rfl hd

/-- C5: each run of the connection task schedules a retry after the fixed
500 ms delay iff reconnect fails, and after the shutdown step (which
deactivates the connection task before anything else) no run of the
connection task ever schedules a retry again. -/
theorem connection_task_retry :
    (∀ ok d, connectionFunc ok = some d ↔ (ok = false ∧ d = RESCHEDULE_MS))
    ∧ (∀ (s : SysState) (acts1 acts2 : List SysAct) (d : Nat),
        SysEv.retry_scheduled d ∉
          sysRun (applySys s (acts1 ++ [SysAct.do_shutdown])) acts2) := by
  constructor
  · intro ok d
    cases ok <;> simp [connectionFunc, eq_comm]
  · intro s acts1 acts2 d
    have hfin : applySys s (acts1 ++ [SysAct.do_shutdown]) = ⟨true, false⟩ := by
      rw [applySys_append]
      rfl
    rw [hfin]
    exact no_retry_of_inactive ⟨true, false⟩ rfl acts2 d

/-- Witness for connection_task_retry on a concrete trace: a failing
reconnect before shutdown schedules the 500 ms retry, and no retry is
scheduled by runs after the shutdown step. -/
theorem connection_task_retry_witness :
    connectionFunc false = some RESCHEDULE_MS
    ∧ SysEv.retry_scheduled RESCHEDULE_MS ∉
        sysRun (applySys ⟨false, true⟩
          ([SysAct.run_connection_task false] ++ [SysAct.do_shutdown]))
          [SysAct.run_connection_task false, SysAct.run_connection_task true] :=
  ⟨(connection_task_retry.1 false RESCHEDULE_MS).mpr ⟨rfl, rfl⟩,
   connection_task_retry.2 ⟨false, true⟩ [SysAct.run_connection_task false]
     [SysAct.run_connection_task false, SysAct.run_connection_task true]
     RESCHEDULE_MS⟩

/-- StorageNATS::startup (lines 310-334): one buffer-creation attempt per
configured consumer; outcomes lists whether each attempt succeeded.  On a
failure the exception aborts startup unless the table is attached, in which
case the failure is logged and that consumer is skipped.  The result is
num_created_consumers. -/
def startupCreate : List Bool → Bool → Except Unit Nat
  | [], _ => .ok 0
  | ok :: rest, att =>
      if ok then (startupCreate rest att).map (· + 1)
      else if att then startupCreate rest att
      else .error ()

/-- Pool accounting: number of free buffers (in the buffers vector), number
of leased buffers (held by sources/sinks), and num_created_consumers. -/
structure PoolState where
  free : Nat
  leased : Nat
  created : Nat
deriving DecidableEq, Repr

/-- Pool operations after startup: pushReadBuffer returning a leased buffer
(lines 373-378) and a successful popReadBuffer leasing one (lines
387-404). -/
inductive PoolOp where
  | push
  | pop
deriving DecidableEq, Repr

/-- Effect of one pool operation: a pop succeeds only when a free buffer
exists (otherwise the caller blocks), a push only returns a buffer some
holder leased. -/
def poolStep (s : PoolState) : PoolOp → Option PoolState
  | .pop => if 0 < s.free then some ⟨s.free - 1, s.leased + 1, s.created⟩ else none
  | .push => if 0 < s.leased then some ⟨s.free + 1, s.leased - 1, s.created⟩ else none

/-- States reachable from a given pool state by interleavings of push and
successful pop operations. -/
inductive PoolReachable : PoolState → PoolState → Prop
  | refl (s : PoolState) : PoolReachable s s
  | step {s t u : PoolState} (op : PoolOp) (h1 : PoolReachable s t)
      (h2 : poolStep t op = some u) : PoolReachable s u

theorem startupCreate_le (outcomes : List Bool) (att : Bool) :
    ∀ n, startupCreate outcomes att = .ok n → n ≤ outcomes.length := by
  induction outcomes with
  | nil =>
      intro n h
      simp only [startupCreate, Except.ok.injEq] at h
      omega
  | cons ok rest ih =>
      intro n h
      cases ok with
      | false =>
          simp only [startupCreate, Bool.false_eq_true, if_false] at h
          cases att with
          | false => exact absurd h (by simp)
          | true =>
              simp only [if_true] at h
              exact Nat.le_succ_of_le (ih n h)
      | true =>
          simp only [startupCreate, if_true] at h
          cases hr : startupCreate rest att with
          | error e => rw [hr] at h; exact absurd h (by simp [Except.map])
          | ok m =>
              rw [hr] at h
              simp only [Except.map, Except.ok.injEq] at h
              have := ih m hr
              simp only [List.length_cons]
              omega

/-- C7: for every interleaving of pushReadBuffer and successful
popReadBuffer operations after a completed startup, leased + free buffers
equals num_created_consumers, and num_created_consumers never exceeds the
configured consumer count. -/
theorem pool_invariant (outcomes : List Bool) (att : Bool) (n : Nat)
    (hs : startupCreate outcomes att = .ok n) (s : PoolState)
    (hr : PoolReachable ⟨n, 0, n⟩ s) :
    s.free + s.leased = s.created ∧ s.created ≤ outcomes.length := by
  have hinv : s.free + s.leased = s.created ∧ s.created = n := by
    induction hr with
    | refl => simp
    | step op h1 h2 ih =>
        rcases ih with ⟨ih1, ih2⟩
        rename_i t u
        cases op with
        | pop =>
            by_cases hf : 0 < t.free
            · simp only [poolStep, hf, if_true, Option.some.injEq] at h2
              subst h2
              constructor
              · simp only
                omega
              · simpa using ih2
            · simp [poolStep, hf] at h2
        | push =>
            by_cases hf : 0 < t.leased
            · simp only [poolStep, hf, if_true, Option.some.injEq] at h2
              subst h2
              constructor
              · simp only
                omega
              · simpa using ih2
            · simp [poolStep, hf] at h2
  exact ⟨hinv.1, hinv.2 ▸ startupCreate_le outcomes att n hs⟩

/-- Witness for pool_invariant: two consumers created, one buffer popped. -/
theorem pool_invariant_witness :
    (1 : Nat) + 1 = 2 ∧ (2 : Nat) ≤ [true, true].length :=
  pool_invariant [true, true] false 2 rfl ⟨1, 1, 2⟩
    (PoolReachable.step PoolOp.pop (PoolReachable.refl ⟨2, 0, 2⟩) rfl)
